import Mathlib

/-!
Shallow embedding of the daily analytics aggregation store of
`src/backend/src/services/analyticsService.js` and of the suggestion lookup of
`src/unnamed/part_000` (`SuggestionsService.getSuggestions`).

Modelling conventions:
* Calendar dates are `Nat` day numbers; ISO `YYYY-MM-DD` strings compare
  lexicographically exactly as their day numbers compare, and the JavaScript
  code only ever compares date strings with `<` and steps them by one day.
* Timestamps (`new Date().toISOString()`) are a `Nat` clock value `now`
  supplied by the caller; the record operations derive their date from the
  same instant, so `date := today`.
* A JavaScript object used as a map (`analytics`, `goalSelections`) is an
  association list in insertion order: a new key is appended at the end,
  an existing key is updated in place, exactly as JS object key order works
  for non-integer-like keys such as `"2024-01-15"` or goal names.
* The persisted ledger file is `Option Ledger`: `none` models a missing or
  unparsable file (`fs.readFile`/`JSON.parse` throwing), `some l` a readable
  file whose JSON parses to `l`.
* `fs.writeFile` failure is injected through a `writeOk : Bool` argument;
  when it is `false` the write step throws, as a disk error would.
* JavaScript exceptions are `Except String`; a `try/catch` is a `match` on
  the `Except` value.
-/

namespace Analytics

/-- Entry pushed onto `dayData.errors` in the `failedRequest` branch of
`updateDailyAnalytics`: `{ error: data.error, timestamp, requestId }`. -/
structure ErrEntry where
  errMsg : String
  timestamp : Nat
  requestId : String
deriving Repr, DecidableEq

/-- The `uniqueIPs` field of a day record.  A freshly created record holds a
JavaScript `Set` (`uniqueIPs: new Set()`); a record parsed back from the JSON
file holds a plain `Array`, because line 169 of the source serializes the set
with `Array.from` and `JSON.parse` never rebuilds a `Set`. -/
inductive IPField where
  | set (elems : List String)
  | arr (elems : List String)
deriving Repr, DecidableEq

/-- The underlying element list (what `Array.from` produces; a JS `Set`
iterates in insertion order). -/
def IPField.elems : IPField → List String
  | .set l => l
  | .arr l => l

/-- `dayData.uniqueIPs.add(ip)`.  A JS `Set` has `add` (inserting at the end
when absent); a JSON-parsed `Array` has no `add` method, so the call throws
`TypeError: dayData.uniqueIPs.add is not a function`. -/
def IPField.add (f : IPField) (ip : String) : Except String IPField :=
  match f with
  | .set l => .ok (.set (if ip ∈ l then l else l ++ [ip]))
  | .arr _ => .error "TypeError: dayData.uniqueIPs.add is not a function"

/-- One per-date record of the ledger (`analytics[date]` in the source). -/
structure DayData where
  date : Nat
  totalRequests : Nat
  successfulRequests : Nat
  failedRequests : Nat
  goalSelections : List (String × Nat)
  errors : List ErrEntry
  averageResponseTime : Nat
  uniqueIPs : IPField
  firstRequest : Option Nat
  lastRequest : Option Nat
deriving Repr, DecidableEq

/-- The parsed ledger file: JS object keyed by date, in insertion order. -/
abbrev Ledger := List (Nat × DayData)

/-- `obj[key]` on a JS object modelled as an association list. -/
def lookupKey {β : Type} : List (Nat × β) → Nat → Option β
  | [], _ => none
  | (k, v) :: t, a => if k = a then some v else lookupKey t a

/-- `obj[key] = v`: updates an existing key in place, appends a new key. -/
def setKey {β : Type} : List (Nat × β) → Nat → β → List (Nat × β)
  | [], a, v => [(a, v)]
  | (k, w) :: t, a, v => if k = a then (k, v) :: t else (k, w) :: setKey t a v

/-- `goalSelections[goal]` lookup on a string-keyed JS object. -/
def lookupGoal : List (String × Nat) → String → Option Nat
  | [], _ => none
  | (k, v) :: t, g => if k = g then some v else lookupGoal t g

/-- `if (!obj[g]) obj[g] = 0; obj[g]++` — increment a goal tally. -/
def bumpGoal : List (String × Nat) → String → List (String × Nat)
  | [], g => [(g, 1)]
  | (k, v) :: t, g => if k = g then (k, v + 1) :: t else (k, v) :: bumpGoal t g

/-- The fresh record built at lines 118–129 of the source when
`analytics[date]` is absent.  Note `uniqueIPs` is a `Set` here. -/
def freshDayData (date : Nat) : DayData :=
  { date := date
    totalRequests := 0
    successfulRequests := 0
    failedRequests := 0
    goalSelections := []
    errors := []
    averageResponseTime := 0
    uniqueIPs := .set []
    firstRequest := none
    lastRequest := none }

/-- The three event kinds dispatched to `updateDailyAnalytics`.  For request
events the payload fields actually read by the service are `data.ip`
(possibly absent, hence `Option`), `data.requestId` and `data.error`. -/
inductive EventType where
  | goalSelection (goal : String)
  | successfulRequest (ip : Option String) (requestId : String)
  | failedRequest (ip : Option String) (errMsg : String) (requestId : String)
deriving Repr, DecidableEq

/-- The `switch (eventType)` of `updateDailyAnalytics` (lines 134–166),
applied to the in-memory day record.  `uniqueIPs.add` can throw (see
`IPField.add`); a throw aborts the whole update. -/
def applyEvent (d : DayData) (ev : EventType) (now : Nat) : Except String DayData :=
  match ev with
  | .goalSelection g =>
      .ok { d with goalSelections := bumpGoal d.goalSelections g }
  | .successfulRequest ip _ =>
      match d.uniqueIPs.add (ip.getD "unknown") with
      | .error e => .error e
      | .ok ips =>
          .ok { d with
            totalRequests := d.totalRequests + 1
            successfulRequests := d.successfulRequests + 1
            uniqueIPs := ips
            lastRequest := some now
            firstRequest := if d.firstRequest = none then some now else d.firstRequest }
  | .failedRequest ip errMsg rid =>
      match d.uniqueIPs.add (ip.getD "unknown") with
      | .error e => .error e
      | .ok ips =>
          .ok { d with
            totalRequests := d.totalRequests + 1
            failedRequests := d.failedRequests + 1
            errors := d.errors ++ [⟨errMsg, now, rid⟩]
            uniqueIPs := ips
            lastRequest := some now
            firstRequest := if d.firstRequest = none then some now else d.firstRequest }

/-- Body of the outer `try` of `updateDailyAnalytics` (lines 106–182):
  * inner `try/catch` (lines 109–115): unreadable or unparsable file is
    replaced by the empty object;
  * get-or-create `analytics[date]`;
  * the event `switch`;
  * `dayData.uniqueIPs = Array.from(dayData.uniqueIPs)` (line 169);
  * prune every stored date `< cutoff` where `cutoff = today - 90`
    (lines 172–180);
  * `fs.writeFile` of the whole structure, which may throw (`writeOk`). -/
def updateCore (storage : Option Ledger) (today now date : Nat) (ev : EventType)
    (writeOk : Bool) : Except String Ledger :=
  let analytics := storage.getD []
  let dayData := (lookupKey analytics date).getD (freshDayData date)
  match applyEvent dayData ev now with
  | .error e => .error e
  | .ok day =>
    let day := { day with uniqueIPs := .arr day.uniqueIPs.elems }
    let analytics := setKey analytics date day
    let cutoff := today - 90
    let analytics := analytics.filter fun p => decide (cutoff ≤ p.1)
    if writeOk then .ok analytics else .error "StorageWriteFailure"

/-- Outcome of one `updateDailyAnalytics` call: the post-state of the ledger
file, plus the message handed to `console.error` when the outer `catch`
fired (the error is logged, never rethrown). -/
structure UpdateResult where
  storage : Option Ledger
  consoleError : Option String
deriving Repr, DecidableEq

/-- `updateDailyAnalytics(date, eventType, data)` (lines 105–187).  The outer
`catch` swallows every error: on failure the file is unchanged and the
message is only logged; the function always returns normally. -/
def updateDailyAnalytics (storage : Option Ledger) (today now date : Nat)
    (ev : EventType) (writeOk : Bool) : UpdateResult :=
  match updateCore storage today now date ev writeOk with
  | .ok l => { storage := some l, consoleError := none }
  | .error e => { storage := storage, consoleError := some e }

/-- `logGoalSelection(goal)` (lines 38–57): derives today's date from the
current timestamp and awaits `updateDailyAnalytics`.  Since the latter never
rejects, the record call always resolves (`Except.ok`); the in-memory
`dailyCounters` mirror and the fire-and-forget `analyticsLogger` call do not
affect the ledger and are not modelled. -/
def logGoalSelection (storage : Option Ledger) (today now : Nat) (goal : String)
    (writeOk : Bool) : Except String UpdateResult :=
  .ok (updateDailyAnalytics storage today now today (.goalSelection goal) writeOk)

/-- `logSuccessfulRequest(requestData)` (lines 63–77). -/
def logSuccessfulRequest (storage : Option Ledger) (today now : Nat)
    (ip : Option String) (requestId : String) (writeOk : Bool) :
    Except String UpdateResult :=
  .ok (updateDailyAnalytics storage today now today
        (.successfulRequest ip requestId) writeOk)

/-- `logFailedRequest(requestData)` (lines 83–97). -/
def logFailedRequest (storage : Option Ledger) (today now : Nat)
    (ip : Option String) (errMsg requestId : String) (writeOk : Bool) :
    Except String UpdateResult :=
  .ok (updateDailyAnalytics storage today now today
        (.failedRequest ip errMsg requestId) writeOk)

/-- `getEmptyDayData(date)` (lines 306–319): the default record returned by
the query layer for an absent date.  Here `uniqueIPs` is an empty `Array`
(`[]` in the source), not a `Set`. -/
def getEmptyDayData (date : Nat) : DayData :=
  { date := date
    totalRequests := 0
    successfulRequests := 0
    failedRequests := 0
    goalSelections := []
    errors := []
    averageResponseTime := 0
    uniqueIPs := .arr []
    firstRequest := none
    lastRequest := none }

/-- `getDailyAnalytics(startDate)` with no end date (lines 195–216, single-day
branch): read and parse the ledger file — on failure the `catch` returns
`{ error: 'Failed to read analytics data' }` — then answer
`analytics[startDate] || getEmptyDayData(startDate)`.  The model returns the
`data` field of the response object. -/
def getDailyAnalyticsSingle (storage : Option Ledger) (startDate : Nat) :
    Except String DayData :=
  match storage with
  | none => .error "Failed to read analytics data"
  | some analytics =>
      .ok ((lookupKey analytics startDate).getD (getEmptyDayData startDate))

/-- `getDailyAnalytics(startDate, endDate)` (lines 218–228, range branch):
iterate `d` from `startDate` while `d <= endDate`, filling each date with
`analytics[dateStr] || getEmptyDayData(dateStr)`.  The result object's keys
are the visited dates in order, hence an association list. -/
def getDailyAnalyticsRange (storage : Option Ledger) (startDate endDate : Nat) :
    Except String (List (Nat × DayData)) :=
  match storage with
  | none => .error "Failed to read analytics data"
  | some analytics =>
      .ok ((List.range' startDate (endDate + 1 - startDate)).map
        fun d => (d, (lookupKey analytics d).getD (getEmptyDayData d)))

/-- `if (ip ∈ set) skip else append` — one step of `uniqueIPs.add(ip)` on the
summary's accumulator `Set`. -/
def addIP (acc : List String) (ip : String) : List String :=
  if ip ∈ acc then acc else acc ++ [ip]

/-- `(dayData.uniqueIPs || []).forEach(ip => uniqueIPs.add(ip))`. -/
def unionIPs (acc : List String) (ips : List String) : List String :=
  ips.foldl addIP acc

/-- `allGoalSelections[goal] = (allGoalSelections[goal] || 0) + count`. -/
def addGoal : List (String × Nat) → String → Nat → List (String × Nat)
  | [], g, c => [(g, c)]
  | (k, v) :: t, g, c => if k = g then (k, v + c) :: t else (k, v) :: addGoal t g c

/-- `Object.entries(dayData.goalSelections || {}).forEach(...)` — merge one
day's tallies into the accumulator. -/
def mergeGoals (acc : List (String × Nat)) (day : List (String × Nat)) :
    List (String × Nat) :=
  day.foldl (fun a p => addGoal a p.1 p.2) acc

/-- The accumulator variables of `getSummaryAnalytics` (lines 253–257). -/
structure Agg where
  totalRequests : Nat
  totalSuccessful : Nat
  totalFailed : Nat
  allGoalSelections : List (String × Nat)
  uniqueIPs : List String
deriving Repr, DecidableEq

/-- One iteration of the `Object.values(rangeData).forEach` loop
(lines 259–273).  The `if (dayData.totalRequests)` truthiness guard skips a
day whose `totalRequests` is `0` entirely — its goal selections and unique
IPs included. -/
def stepAgg (acc : Agg) (d : DayData) : Agg :=
  if d.totalRequests ≠ 0 then
    { totalRequests := acc.totalRequests + d.totalRequests
      totalSuccessful := acc.totalSuccessful + d.successfulRequests
      totalFailed := acc.totalFailed + d.failedRequests
      allGoalSelections := mergeGoals acc.allGoalSelections d.goalSelections
      uniqueIPs := unionIPs acc.uniqueIPs d.uniqueIPs.elems }
  else acc

/-- Stable insertion into a list sorted descending by count — the effect of
`.sort(([,a],[,b]) => b - a)` (V8's `Array.prototype.sort` is stable). -/
def insertDesc (p : String × Nat) : List (String × Nat) → List (String × Nat)
  | [] => [p]
  | q :: t => if q.2 < p.2 then p :: q :: t else q :: insertDesc p t

/-- `Object.entries(allGoalSelections).sort(([,a],[,b]) => b - a)`. -/
def sortGoalsDesc (l : List (String × Nat)) : List (String × Nat) :=
  l.foldr insertDesc []

/-- `(x).toFixed(1)` for the non-negative rational `num / den`: round to the
nearest tenth, ties upward (ECMAScript `toFixed` picks the larger candidate),
rendered as `"units.tenths"`. -/
def toFixed1 (num den : Nat) : String :=
  let r := (20 * num + den) / (2 * den)
  toString (r / 10) ++ "." ++ toString (r % 10)

/-- The `summary` object of `getSummaryAnalytics`'s response (lines 284–291).
The `percentage` decoration of `popularGoals` entries is omitted: it does not
affect which goals appear, their tallies or their order. -/
structure Summary where
  totalRequests : Nat
  successfulRequests : Nat
  failedRequests : Nat
  successRate : String
  uniqueUsers : Nat
  popularGoals : List (String × Nat)
deriving Repr, DecidableEq

/-- `getSummaryAnalytics(days)` (lines 241–299): compute
`[today - days, today]`, fetch the range, fold the accumulators over
`Object.values(rangeData)`, then build the summary.  When the ledger file is
unreadable, `getDailyAnalytics` returns `{ error: '...' }`; its only value is
a string, whose `totalRequests` is `undefined`, so the loop body never runs
and every accumulator stays at its initial value — modelled by folding over
the empty list. -/
def getSummaryAnalytics (storage : Option Ledger) (today days_ : Nat) : Summary :=
  let startDate := today - days_
  let endDate := today
  let recs : List DayData :=
    match getDailyAnalyticsRange storage startDate endDate with
    | .ok m => m.map Prod.snd
    | .error _ => []
  let agg := recs.foldl stepAgg ⟨0, 0, 0, [], []⟩
  { totalRequests := agg.totalRequests
    successfulRequests := agg.totalSuccessful
    failedRequests := agg.totalFailed
    successRate := if 0 < agg.totalRequests then
        toFixed1 (agg.totalSuccessful * 100) agg.totalRequests
      else "0"
    uniqueUsers := agg.uniqueIPs.length
    popularGoals := sortGoalsDesc agg.allGoalSelections }

end Analytics

namespace Suggestions

/-- `ageRecommendation: { min, max }` of a catalog entry. -/
structure AgeRec where
  min : Nat
  max : Nat
deriving Repr, DecidableEq

/-- One entry of the static `peptideDatabase` of `SuggestionsService`
(src/unnamed/part_000).  The prose fields (`description`, `dosage`,
`timing`, `benefits`) and the `personalizedNote` decoration added by
`getSuggestions` play no role in which entries are returned or how many,
and are omitted. -/
structure Peptide where
  name : String
  ageRecommendation : AgeRec
deriving Repr, DecidableEq

/-- `goalPeptides[goal]` lookup on the string-keyed catalog object. -/
def lookupCatalog : List (String × List Peptide) → String → Option (List Peptide)
  | [], _ => none
  | (k, v) :: t, g => if k = g then some v else lookupCatalog t g

/-- The static `peptideDatabase` (names and age ranges, in source order). -/
def peptideDatabase : List (String × List Peptide) :=
  [ ("energy",
      [ ⟨"CJC-1295 with DAC", ⟨25, 65⟩⟩
      , ⟨"Ipamorelin", ⟨20, 70⟩⟩
      , ⟨"MOTS-c", ⟨30, 80⟩⟩ ])
  , ("sleep",
      [ ⟨"DSIP (Delta Sleep-Inducing Peptide)", ⟨18, 75⟩⟩
      , ⟨"CJC-1295 with DAC", ⟨25, 65⟩⟩
      , ⟨"Glycine Peptide Complex", ⟨18, 85⟩⟩ ])
  , ("focus",
      [ ⟨"Noopept", ⟨18, 60⟩⟩
      , ⟨"Selank", ⟨20, 65⟩⟩
      , ⟨"Cerebrolysin", ⟨25, 70⟩⟩ ])
  , ("recovery",
      [ ⟨"BPC-157", ⟨18, 80⟩⟩
      , ⟨"TB-500 (Thymosin Beta-4)", ⟨20, 75⟩⟩
      , ⟨"IGF-1 LR3", ⟨21, 65⟩⟩ ])
  , ("longevity",
      [ ⟨"Epitalon", ⟨35, 85⟩⟩
      , ⟨"GHK-Cu", ⟨30, 80⟩⟩
      , ⟨"NAD+ Peptide Precursors", ⟨40, 85⟩⟩ ]) ]

/-- `getSuggestions(age, goal)` (src/unnamed/part_000 lines 146–174):
`this.peptideDatabase[goal] || []`; throw when empty; filter by
`age >= min && age <= max`; fall back to all entries for the goal when the
filter is empty; `.slice(0, 3)`. -/
def getSuggestions (age : Nat) (goal : String) : Except String (List Peptide) :=
  let goalPeptides := (lookupCatalog peptideDatabase goal).getD []
  if goalPeptides.isEmpty then
    .error ("No peptides found for goal: " ++ goal)
  else
    let ageSuitable := goalPeptides.filter fun p =>
      decide (p.ageRecommendation.min ≤ age ∧ age ≤ p.ageRecommendation.max)
    let selected := if ageSuitable.isEmpty then goalPeptides else ageSuitable
    .ok (selected.take 3)

end Suggestions

open Analytics Suggestions

/-! ### Test fixtures (concrete ledgers used by the closed theorems) -/

/-- A ledger containing the dates `today-200` through `today` for
`today = 200`, each with an (empty) stored record. -/
def ledger200 : Ledger :=
  (List.range' 0 201).map fun d => (d, getEmptyDayData d)

/-- A stored day with `{total:10, success:8}` (and 2 failures). -/
def c8DayA : DayData :=
  { date := 99
    totalRequests := 10
    successfulRequests := 8
    failedRequests := 2
    goalSelections := []
    errors := []
    averageResponseTime := 0
    uniqueIPs := .arr []
    firstRequest := none
    lastRequest := none }

/-- A stored day with `{total:5, success:5}`. -/
def c8DayB : DayData :=
  { c8DayA with
    date := 100
    totalRequests := 5
    successfulRequests := 5
    failedRequests := 0 }

/-- Two-day ledger for the summary example of the spec. -/
def c8Ledger : Ledger := [(99, c8DayA), (100, c8DayB)]

/-- A stored day whose `totalRequests` is zero but whose `goalSelections`
and `uniqueIPs` are non-empty (reachable: goal-selection events do not touch
`totalRequests`; the IP is synthetic but legal ledger content). -/
def c9Day : DayData :=
  { date := 100
    totalRequests := 0
    successfulRequests := 0
    failedRequests := 0
    goalSelections := [("sleep", 1)]
    errors := []
    averageResponseTime := 0
    uniqueIPs := .arr ["1.2.3.4"]
    firstRequest := none
    lastRequest := none }

/-! ### Characterization helpers (used only in theorem statements/proofs) -/

/-- Tally recorded for goal `g` in a goal-selection object, robust to
duplicate keys (an association list built by `bumpGoal`/`addGoal` never has
any, but the characterization does not rely on that). -/
def goalCount (l : List (String × Nat)) (g : String) : Nat :=
  ((l.filter fun p => decide (p.1 = g)).map Prod.snd).sum

/-- The sequence of day records `getSummaryAnalytics` iterates over when the
ledger is readable: one record per date of `[startDate, endDate]`, stored or
default. -/
def rangeRecords (analytics : Ledger) (startDate endDate : Nat) : List DayData :=
  (List.range' startDate (endDate + 1 - startDate)).map
    fun d => (lookupKey analytics d).getD (getEmptyDayData d)

/-- The days actually aggregated by the summary loop: those passing the
`if (dayData.totalRequests)` truthiness guard. -/
def activeRecords (analytics : Ledger) (startDate endDate : Nat) : List DayData :=
  (rangeRecords analytics startDate endDate).filter
    fun d => decide (d.totalRequests ≠ 0)

/-! ### Helper lemmas -/

/-- With the write failing, the body of `updateDailyAnalytics` always throws:
either the event `switch` throws first, or `fs.writeFile` does. -/
theorem updateCore_writeFail (storage : Option Ledger) (today now date : Nat)
    (ev : EventType) :
    ∃ e, updateCore storage today now date ev false = .error e := by
  simp only [updateCore]
  cases applyEvent ((lookupKey (storage.getD []) date).getD (freshDayData date)) ev now with
  | error e => exact ⟨e, rfl⟩
  | ok d => exact ⟨"StorageWriteFailure", rfl⟩

/-- With the write failing, `updateDailyAnalytics` leaves the file unchanged
and only logs the error. -/
theorem updateDailyAnalytics_writeFail (storage : Option Ledger)
    (today now date : Nat) (ev : EventType) :
    ∃ e, updateDailyAnalytics storage today now date ev false =
      ⟨storage, some e⟩ := by
  obtain ⟨e, he⟩ := updateCore_writeFail storage today now date ev
  exact ⟨e, by simp [updateDailyAnalytics, he]⟩

/-- A successful `updateDailyAnalytics` body returns exactly the pruned
association list. -/
theorem updateCore_ok_eq (storage : Option Ledger) (today now date : Nat)
    (ev : EventType) (writeOk : Bool) (l : Ledger)
    (h : updateCore storage today now date ev writeOk = .ok l) :
    ∃ analytics : Ledger,
      l = analytics.filter fun p => decide (today - 90 ≤ p.1) := by
  simp only [updateCore] at h
  split at h
  · exact absurd h (by simp)
  · split at h
    · exact ⟨_, (Except.ok.inj h).symm⟩
    · exact absurd h (by simp)

/-- Everything surviving a `filter` satisfies its predicate. -/
theorem all_filter_self {α : Type} (p : α → Bool) (l : List α) :
    (l.filter p).all p = true := by
  simp [List.all_eq_true, List.mem_filter]

/-- Projecting the keys back out of a key-to-pair tabulation. -/
theorem map_fst_pairs {β : Type} (f : Nat → β) (l : List Nat) :
    (l.map fun d => (d, f d)).map Prod.fst = l := by
  induction l with
  | nil => rfl
  | cons a t ih => simp [ih]

/-- Projecting the values back out of a key-to-pair tabulation. -/
theorem map_snd_pairs {β : Type} (f : Nat → β) (l : List Nat) :
    (l.map fun d => (d, f d)).map Prod.snd = l.map f := by
  induction l with
  | nil => rfl
  | cons a t ih => simp [ih]

/-- The accumulator fold of `getSummaryAnalytics` over a readable ledger. -/
def summaryAgg (analytics : Ledger) (today days_ : Nat) : Agg :=
  (rangeRecords analytics (today - days_) today).foldl stepAgg ⟨0, 0, 0, [], []⟩

/-- `getSummaryAnalytics` on a readable ledger, written in terms of the
accumulator fold over the range's day records. -/
theorem getSummaryAnalytics_eq (analytics : Ledger) (today days_ : Nat) :
    getSummaryAnalytics (some analytics) today days_ =
      { totalRequests := (summaryAgg analytics today days_).totalRequests
        successfulRequests := (summaryAgg analytics today days_).totalSuccessful
        failedRequests := (summaryAgg analytics today days_).totalFailed
        successRate := if 0 < (summaryAgg analytics today days_).totalRequests then
            toFixed1 ((summaryAgg analytics today days_).totalSuccessful * 100)
              (summaryAgg analytics today days_).totalRequests
          else "0"
        uniqueUsers := (summaryAgg analytics today days_).uniqueIPs.length
        popularGoals :=
          sortGoalsDesc (summaryAgg analytics today days_).allGoalSelections } := by
  simp only [getSummaryAnalytics, getDailyAnalyticsRange, summaryAgg, rangeRecords]
  rw [map_snd_pairs]

/-- The summary's total is the sum of the range's `totalRequests`: days
skipped by the truthiness guard contribute zero anyway. -/
theorem foldl_stepAgg_totalRequests (recs : List DayData) (a : Agg) :
    (recs.foldl stepAgg a).totalRequests
      = a.totalRequests + (recs.map DayData.totalRequests).sum := by
  induction recs generalizing a with
  | nil => simp
  | cons d t ih =>
      rw [List.foldl_cons, ih]
      by_cases h : d.totalRequests = 0 <;> simp [stepAgg, h] <;> omega

/-- Goal tally of the empty object. -/
theorem goalCount_nil (g : String) : goalCount [] g = 0 := rfl

/-- Goal tally of a cons cell. -/
theorem goalCount_cons (a : String) (b : Nat) (t : List (String × Nat))
    (g : String) :
    goalCount ((a, b) :: t) g = (if a = g then b else 0) + goalCount t g := by
  by_cases h : a = g <;> simp [goalCount, h]

/-- `addGoal` adds `c` to the tally of `k` and leaves other goals alone. -/
theorem goalCount_addGoal (acc : List (String × Nat)) (k : String) (c : Nat)
    (g : String) :
    goalCount (addGoal acc k c) g = goalCount acc g + (if k = g then c else 0) := by
  induction acc with
  | nil => by_cases h : k = g <;> simp [addGoal, goalCount, h]
  | cons p t ih =>
      obtain ⟨a, b⟩ := p
      simp only [addGoal]
      by_cases hak : a = k
      · rw [if_pos hak, goalCount_cons, goalCount_cons, hak]
        by_cases hg : k = g <;> simp [hg]
        omega
      · rw [if_neg hak, goalCount_cons, goalCount_cons, ih]
        omega

/-- Merging a day's tallies adds them goalwise. -/
theorem goalCount_mergeGoals (day acc : List (String × Nat)) (g : String) :
    goalCount (mergeGoals acc day) g = goalCount acc g + goalCount day g := by
  induction day generalizing acc with
  | nil => simp [mergeGoals, goalCount]
  | cons p t ih =>
      obtain ⟨a, b⟩ := p
      rw [show mergeGoals acc ((a, b) :: t) = mergeGoals (addGoal acc a b) t from rfl,
        ih, goalCount_addGoal, goalCount_cons]
      omega

/-- The fold accumulates, goal by goal, the tallies of exactly the days that
pass the truthiness guard. -/
theorem foldl_stepAgg_goalCount (recs : List DayData) (a : Agg) (g : String) :
    goalCount (recs.foldl stepAgg a).allGoalSelections g
      = goalCount a.allGoalSelections g
        + ((recs.filter fun d => decide (d.totalRequests ≠ 0)).map
            fun d => goalCount d.goalSelections g).sum := by
  induction recs generalizing a with
  | nil => simp
  | cons d t ih =>
      rw [List.foldl_cons, ih]
      by_cases h : d.totalRequests = 0 <;>
        simp [stepAgg, h, goalCount_mergeGoals] <;> omega

/-- Descending insertion is a permutation of consing. -/
theorem insertDesc_perm (p : String × Nat) (l : List (String × Nat)) :
    (insertDesc p l).Perm (p :: l) := by
  induction l with
  | nil => exact .refl _
  | cons q t ih =>
      simp only [insertDesc]
      by_cases h : q.2 < p.2
      · rw [if_pos h]
      · rw [if_neg h]
        exact (ih.cons q).trans (List.Perm.swap p q t)

/-- The popularity sort permutes the merged tallies. -/
theorem sortGoalsDesc_perm (l : List (String × Nat)) : (sortGoalsDesc l).Perm l := by
  induction l with
  | nil => exact .refl _
  | cons p t ih => exact (insertDesc_perm p (sortGoalsDesc t)).trans (ih.cons p)

/-- Goal tallies are invariant under permutation. -/
theorem goalCount_perm {l₁ l₂ : List (String × Nat)} (h : l₁.Perm l₂) (g : String) :
    goalCount l₁ g = goalCount l₂ g :=
  List.Perm.sum_eq ((h.filter _).map _)

/-- Membership after a `Set.add` step. -/
theorem mem_addIP (acc : List String) (ip x : String) :
    x ∈ addIP acc ip ↔ x ∈ acc ∨ x = ip := by
  by_cases h : ip ∈ acc
  · simp only [addIP, if_pos h]
    constructor
    · exact Or.inl
    · rintro (hx | rfl)
      · exact hx
      · exact h
  · simp [addIP, if_neg h]

/-- A `Set.add` step preserves distinctness. -/
theorem nodup_addIP (acc : List String) (ip : String) (h : acc.Nodup) :
    (addIP acc ip).Nodup := by
  by_cases hm : ip ∈ acc
  · simpa [addIP, if_pos hm] using h
  · simp [addIP, if_neg hm, List.nodup_append, h, hm]

/-- Membership in the union of a day's callers into the accumulator. -/
theorem mem_unionIPs (ips acc : List String) (x : String) :
    x ∈ unionIPs acc ips ↔ x ∈ acc ∨ x ∈ ips := by
  induction ips generalizing acc with
  | nil => simp [unionIPs]
  | cons i t ih =>
      rw [show unionIPs acc (i :: t) = unionIPs (addIP acc i) t from rfl, ih]
      simp only [mem_addIP, List.mem_cons]
      tauto

/-- Unioning preserves distinctness. -/
theorem nodup_unionIPs (ips acc : List String) (h : acc.Nodup) :
    (unionIPs acc ips).Nodup := by
  induction ips generalizing acc with
  | nil => exact h
  | cons i t ih => exact ih _ (nodup_addIP _ _ h)

/-- The accumulated caller set contains exactly the callers of the days that
pass the truthiness guard. -/
theorem foldl_stepAgg_mem_uniqueIPs (recs : List DayData) (a : Agg) (x : String) :
    x ∈ (recs.foldl stepAgg a).uniqueIPs ↔
      x ∈ a.uniqueIPs ∨
        ∃ d, d ∈ (recs.filter fun d => decide (d.totalRequests ≠ 0)) ∧
          x ∈ d.uniqueIPs.elems := by
  induction recs generalizing a with
  | nil => simp
  | cons d t ih =>
      rw [List.foldl_cons, ih]
      by_cases h : d.totalRequests = 0 <;>
        simp [stepAgg, h, mem_unionIPs] <;> tauto

/-- The accumulated caller list stays duplicate-free, so its length is a
set cardinality. -/
theorem foldl_stepAgg_nodup_uniqueIPs (recs : List DayData) (a : Agg)
    (h : a.uniqueIPs.Nodup) : (recs.foldl stepAgg a).uniqueIPs.Nodup := by
  induction recs generalizing a with
  | nil => exact h
  | cons d t ih =>
      rw [List.foldl_cons]
      by_cases hz : d.totalRequests = 0
      · exact ih _ (by simpa [stepAgg, hz] using h)
      · exact ih _ (by simpa [stepAgg, hz] using nodup_unionIPs _ _ h)

/-! ### The claims -/

/-- C1: the spec claims that from an empty ledger, after `N` successful and
`M` failed request events on one date the day's record shows
`totalRequests = N + M`.  The code violates this for `N = 2, M = 0`: the
first event persists the day with `uniqueIPs` serialized as a JSON array, so
the second event's `dayData.uniqueIPs.add(...)` throws a `TypeError`, the
outer `catch` swallows it, and the event is dropped — the stored record
keeps `totalRequests = 1` (the `totalRequests = successfulRequests +
failedRequests` invariant itself still holds on the stored record). -/
theorem c1_second_request_event_dropped :
    (let r1 := updateDailyAnalytics none 100 100 100
        (.successfulRequest (some "1.2.3.4") "r1") true
     let r2 := updateDailyAnalytics r1.storage 100 100 100
        (.successfulRequest (some "1.2.3.4") "r2") true
     lookupKey (r2.storage.getD []) 100 =
        some ⟨100, 1, 1, 0, [], [], 0, .arr ["1.2.3.4"], some 100, some 100⟩ ∧
     r2.consoleError =
        some "TypeError: dayData.uniqueIPs.add is not a function") :=
  ⟨rfl, rfl⟩

/-- C2 (counterexample): with the ledger write failing, a record call still
resolves successfully (`Except.ok`, nothing propagated) and the persisted
ledger is unchanged — the event is silently dropped, contradicting the
claim that the failure is propagated to the caller. -/
theorem c2_counterexample :
    logGoalSelection (some []) 100 100 "sleep" false =
      .ok ⟨some [], some "StorageWriteFailure"⟩ :=
  rfl

/-- C2 (amended): every record call performs the read-modify-write, but when
the write of the full ledger fails the error is caught inside
`updateDailyAnalytics` and only logged; the record call resolves
successfully with the ledger file unchanged, so the event is silently
dropped rather than the failure being propagated. -/
theorem c2_write_failure_swallowed (storage : Option Ledger) (today now : Nat)
    (goal : String) (ip : Option String) (errMsg rid : String) :
    (∃ e, logGoalSelection storage today now goal false =
      .ok ⟨storage, some e⟩) ∧
    (∃ e, logSuccessfulRequest storage today now ip rid false =
      .ok ⟨storage, some e⟩) ∧
    (∃ e, logFailedRequest storage today now ip errMsg rid false =
      .ok ⟨storage, some e⟩) := by
  refine ⟨?_, ?_, ?_⟩
  · obtain ⟨e, he⟩ := updateDailyAnalytics_writeFail storage today now today
      (.goalSelection goal)
    exact ⟨e, by simp [logGoalSelection, he]⟩
  · obtain ⟨e, he⟩ := updateDailyAnalytics_writeFail storage today now today
      (.successfulRequest ip rid)
    exact ⟨e, by simp [logSuccessfulRequest, he]⟩
  · obtain ⟨e, he⟩ := updateDailyAnalytics_writeFail storage today now today
      (.failedRequest ip errMsg rid)
    exact ⟨e, by simp [logFailedRequest, he]⟩

/-- C3: the spec's concrete scenario — `GoalSelection("sleep")` then
`SuccessfulRequest` with caller `1.2.3.4` on the same date, each persisted
and reloaded through the file — should give `totalRequests = 1`,
`successfulRequests = 1`, `uniqueCallers = ["1.2.3.4"]`.  In the code the
reloaded day's `uniqueIPs` is a JSON array, `.add` throws, the request event
is dropped, and the query shows `totalRequests = 0` with no callers. -/
theorem c3_scenario_event_dropped :
    (let r1 := updateDailyAnalytics none 100 100 100 (.goalSelection "sleep") true
     let r2 := updateDailyAnalytics r1.storage 100 100 100
        (.successfulRequest (some "1.2.3.4") "r1") true
     getDailyAnalyticsSingle r2.storage 100 =
        .ok ⟨100, 0, 0, 0, [("sleep", 1)], [], 0, .arr [], none, none⟩ ∧
     r2.consoleError =
        some "TypeError: dayData.uniqueIPs.add is not a function") :=
  ⟨rfl, rfl⟩

/-- C4: when the ledger file is missing or unparsable, a record operation
behaves exactly as on an empty ledger: it creates a fresh ledger holding one
record for today, completes with nothing logged, and (being a total
function whose record wrappers return `Except.ok`) surfaces no read failure
to the caller. -/
theorem c4_read_failure_recovered (today now : Nat) (ev : EventType) :
    updateDailyAnalytics none today now today ev true =
      updateDailyAnalytics (some []) today now today ev true ∧
    (updateDailyAnalytics none today now today ev true).consoleError = none ∧
    ((updateDailyAnalytics none today now today ev true).storage.getD []).map
      Prod.fst = [today] := by
  have h90 : (decide (today - 90 ≤ today)) = true := by simp [Nat.sub_le]
  refine ⟨?_, ?_, ?_⟩ <;>
    cases ev <;>
      simp [updateDailyAnalytics, updateCore, applyEvent, freshDayData,
        IPField.add, IPField.elems, lookupKey, setKey, List.filter, h90]

/-- C5 (counterexample): with `today = 200` and a ledger holding the dates
`today-200` through `today`, one successful write leaves the date
`110 = today - 90` in the ledger, although `110` is earlier than
`today - 89 = 111`; the claim that no date earlier than `today-89` remains
is therefore false (removal is strict: `date < cutoff`). -/
theorem c5_counterexample :
    (lookupKey
      ((updateDailyAnalytics (some ledger200) 200 200 200
          (.goalSelection "sleep") true).storage.getD []) 110).isSome = true ∧
    110 < 200 - 89 := by
  decide

/-- C5 (amended): every update that reaches the write computes
`cutoff = today - 90` and removes every stored date strictly below it, so
after a successful write every remaining date is at least `today - 90`
(the boundary date `today - 90` itself survives, being not strictly below
the cutoff). -/
theorem c5_prune_cutoff (analytics : Ledger) (today now date : Nat)
    (ev : EventType) (writeOk : Bool)
    (h : (updateDailyAnalytics (some analytics) today now date ev
      writeOk).consoleError = none) :
    ((updateDailyAnalytics (some analytics) today now date ev
        writeOk).storage.getD []).all
      (fun p => decide (today - 90 ≤ p.1)) = true := by
  unfold updateDailyAnalytics at h ⊢
  cases hc : updateCore (some analytics) today now date ev writeOk with
  | error e => rw [hc] at h; simp at h
  | ok l =>
      obtain ⟨a, rfl⟩ := updateCore_ok_eq _ _ _ _ _ _ _ hc
      exact all_filter_self _ a

/-- C5 (witness): the pruning theorem applied at a concrete call. -/
theorem c5_witness :
    ((updateDailyAnalytics (some [(0, getEmptyDayData 0)]) 100 100 100
        (.goalSelection "sleep") true).storage.getD []).all
      (fun p => decide (100 - 90 ≤ p.1)) = true :=
  c5_prune_cutoff [(0, getEmptyDayData 0)] 100 100 100
    (.goalSelection "sleep") true (by decide)

/-- C6 (counterexample): when the ledger file is missing or unparsable, the
single-day query returns `{ error: 'Failed to read analytics data' }` for
every date — it does not return the empty default record, so the claim's
"a query for an unknown date never fails" is false on an unreadable file. -/
theorem c6_counterexample :
    getDailyAnalyticsSingle none 7 = .error "Failed to read analytics data" :=
  rfl

/-- C6 (amended): provided the ledger file is readable and parses, the
single-day query returns the stored record when present and otherwise the
empty default record — all counts zero, empty collections, null
timestamps — and never fails; repeated queries of an untouched date always
return that same empty shape (the query never writes). -/
theorem c6_single_day_query (analytics : Ledger) (d : Nat) :
    (lookupKey analytics d = none →
      getDailyAnalyticsSingle (some analytics) d =
        .ok ⟨d, 0, 0, 0, [], [], 0, .arr [], none, none⟩) ∧
    (∀ r, lookupKey analytics d = some r →
      getDailyAnalyticsSingle (some analytics) d = .ok r) := by
  constructor
  · intro h
    simp [getDailyAnalyticsSingle, h, getEmptyDayData]
  · intro r h
    simp [getDailyAnalyticsSingle, h]

/-- C6 (witness): the single-day query theorem applied to the empty ledger
at date 7, whose lookup is `none`. -/
theorem c6_witness :
    getDailyAnalyticsSingle (some []) 7 =
      .ok ⟨7, 0, 0, 0, [], [], 0, .arr [], none, none⟩ :=
  (c6_single_day_query [] 7).1 rfl

/-- C7 (counterexample): when the ledger file is missing or unparsable, the
range query does not return a mapping over `[start, end]` at all — it
returns `{ error: 'Failed to read analytics data' }`, here for the pair
`start = 3, end = 5`. -/
theorem c7_counterexample :
    getDailyAnalyticsRange none 3 5 = .error "Failed to read analytics data" :=
  rfl

/-- C7 (amended): provided the ledger file is readable and parses, the range
query returns a mapping whose keys are exactly the calendar dates of
`[start, end]` (without duplicates), each date mapped to its stored record
or, when absent, to the empty default record; `start > end` yields the
empty mapping and `start = end` exactly one entry. -/
theorem c7_range_query (analytics : Ledger) (s e : Nat) :
    ∃ m, getDailyAnalyticsRange (some analytics) s e = .ok m ∧
      (∀ d, d ∈ m.map Prod.fst ↔ (s ≤ d ∧ d ≤ e)) ∧
      (m.map Prod.fst).Nodup ∧
      (e < s → m = []) ∧
      (s = e → m.length = 1) ∧
      (∀ d r, (d, r) ∈ m →
        r = (lookupKey analytics d).getD (getEmptyDayData d)) := by
  refine ⟨_, rfl, ?_, ?_, ?_, ?_, ?_⟩
  · intro d
    rw [map_fst_pairs]
    simp [List.mem_range'_1]
    omega
  · rw [map_fst_pairs]
    exact List.nodup_range' s (e + 1 - s)
  · intro h
    have h0 : e + 1 - s = 0 := by omega
    simp [h0]
  · intro h
    subst h
    simp
  · intro d r hm
    simp only [List.mem_map] at hm
    obtain ⟨d', -, heq⟩ := hm
    cases heq
    rfl

/-- C7 (witness): the range theorem applied to the empty ledger with
`start = end = 3` gives a one-entry mapping. -/
theorem c7_witness :
    ∃ m, getDailyAnalyticsRange (some []) 3 3 = .ok m ∧ m.length = 1 := by
  obtain ⟨m, hm, -, -, -, hlen, -⟩ := c7_range_query [] 3 3
  exact ⟨m, hm, hlen rfl⟩

/-- C8: for every readable ledger, the summary's `successRate` is the
summed successful count divided by the summed total, times 100, rounded to
one decimal (`toFixed1`), and the string `"0"` when the summed total is
zero; the summed total itself is the sum of `totalRequests` over the whole
range.  On the spec's example — two days `{total:10, success:8}` and
`{total:5, success:5}` — the summary reports `totalRequests = 15` and
`successRate = "86.7"`. -/
theorem c8_success_rate (analytics : Ledger) (today days_ : Nat) :
    ((getSummaryAnalytics (some analytics) today days_).successRate =
      if 0 < (getSummaryAnalytics (some analytics) today days_).totalRequests then
        toFixed1
          ((getSummaryAnalytics (some analytics) today days_).successfulRequests
            * 100)
          (getSummaryAnalytics (some analytics) today days_).totalRequests
      else "0") ∧
    (getSummaryAnalytics (some analytics) today days_).totalRequests =
      ((rangeRecords analytics (today - days_) today).map
        DayData.totalRequests).sum ∧
    (getSummaryAnalytics (some c8Ledger) 100 1).totalRequests = 15 ∧
    (getSummaryAnalytics (some c8Ledger) 100 1).successRate = "86.7" := by
  refine ⟨?_, ?_, rfl, rfl⟩
  · rw [getSummaryAnalytics_eq]
  · rw [getSummaryAnalytics_eq]
    simpa using foldl_stepAgg_totalRequests (rangeRecords analytics (today - days_) today) ⟨0, 0, 0, [], []⟩

/-- C9 (counterexample): a day in range whose `totalRequests` is zero but
whose `goalSelections` and `uniqueIPs` are non-empty is skipped entirely by
the summary's truthiness guard: its goals and callers do not appear, so the
claim that zero-total days are merged is false. -/
theorem c9_counterexample :
    (getSummaryAnalytics (some [(100, c9Day)]) 100 0).popularGoals = [] ∧
    (getSummaryAnalytics (some [(100, c9Day)]) 100 0).uniqueUsers = 0 :=
  ⟨rfl, rfl⟩

/-- C9 (amended): `getSummary` aggregates over exactly the days of
`[today - days, today]` whose `totalRequests` is non-zero: goal tallies are
merged by addition over those days and the unique-caller sets are unioned
over those days (a zero-total day is skipped even when its goal tallies are
non-empty); request totals are summed over the whole range (zero-total days
contribute nothing either way). -/
theorem c9_summary_aggregation (analytics : Ledger) (today days_ : Nat)
    (g : String) :
    goalCount (getSummaryAnalytics (some analytics) today days_).popularGoals g =
      ((activeRecords analytics (today - days_) today).map
        fun d => goalCount d.goalSelections g).sum ∧
    (getSummaryAnalytics (some analytics) today days_).uniqueUsers =
      ((activeRecords analytics (today - days_) today).flatMap
        fun d => d.uniqueIPs.elems).toFinset.card ∧
    (getSummaryAnalytics (some analytics) today days_).totalRequests =
      ((rangeRecords analytics (today - days_) today).map
        DayData.totalRequests).sum := by
  rw [getSummaryAnalytics_eq]
  refine ⟨?_, ?_, ?_⟩
  · rw [goalCount_perm (sortGoalsDesc_perm _) g]
    simpa [summaryAgg, activeRecords, goalCount_nil] using
      foldl_stepAgg_goalCount (rangeRecords analytics (today - days_) today)
        ⟨0, 0, 0, [], []⟩ g
  · have hnd : (summaryAgg analytics today days_).uniqueIPs.Nodup :=
      foldl_stepAgg_nodup_uniqueIPs _ _ (by simp)
    show (summaryAgg analytics today days_).uniqueIPs.length = _
    rw [← List.toFinset_card_of_nodup hnd]
    congr 1
    ext y
    simp only [List.mem_toFinset, List.mem_flatMap, summaryAgg,
      foldl_stepAgg_mem_uniqueIPs, activeRecords]
    simp
  · simpa [summaryAgg] using foldl_stepAgg_totalRequests
      (rangeRecords analytics (today - days_) today) ⟨0, 0, 0, [], []⟩

/-- Every goal list stored in the catalog has exactly three entries. -/
theorem catalog_entries_length (goal : String) (entries : List Peptide)
    (h : lookupCatalog peptideDatabase goal = some entries) :
    entries.length = 3 := by
  simp only [peptideDatabase, lookupCatalog] at h
  repeat' split at h
  all_goals first
    | (injection h with h; subst h; rfl)
    | (injection h)

/-- C10: for every age and every goal present in the catalog (energy,
sleep, focus, recovery, longevity), `getSuggestions` returns a non-empty
list of at most 3 entries — the entries whose age range contains the age
when any exist, otherwise all of the goal's entries as a fallback (the
`slice(0, 3)` never truncates, since every goal has exactly three
entries) — and it throws for a goal not in the catalog. -/
theorem c10_suggestions (age : Nat) (goal : String) :
    (lookupCatalog peptideDatabase goal = none →
      ∃ e, getSuggestions age goal = .error e) ∧
    (∀ entries, lookupCatalog peptideDatabase goal = some entries →
      ∃ l, getSuggestions age goal = .ok l ∧ l ≠ [] ∧ l.length ≤ 3 ∧
        l = (if (entries.filter fun p =>
                decide (p.ageRecommendation.min ≤ age ∧
                  age ≤ p.ageRecommendation.max)).isEmpty
             then entries
             else entries.filter fun p =>
                decide (p.ageRecommendation.min ≤ age ∧
                  age ≤ p.ageRecommendation.max))) := by
  constructor
  · intro h
    exact ⟨"No peptides found for goal: " ++ goal, by simp [getSuggestions, h]⟩
  · intro entries h
    have hlen : entries.length = 3 := catalog_entries_length goal entries h
    have hne : entries ≠ [] := by
      intro hnil
      rw [hnil] at hlen
      simp at hlen
    by_cases hfe : (entries.filter fun p =>
        decide (p.ageRecommendation.min ≤ age ∧
          age ≤ p.ageRecommendation.max)).isEmpty
    · refine ⟨entries, ?_, hne, le_of_eq hlen, by rw [if_pos hfe]⟩
      simp only [getSuggestions, h, Option.getD_some, hfe, if_pos,
        List.isEmpty_iff, if_neg hne]
      rw [List.take_of_length_le (le_of_eq hlen)]
    · refine ⟨_, ?_, ?_, hlen ▸ List.length_filter_le _ _, by rw [if_neg hfe]⟩
      · simp only [getSuggestions, h, Option.getD_some, hfe,
          List.isEmpty_iff, if_neg hne, if_false, Bool.false_eq_true]
        rw [List.take_of_length_le (hlen ▸ List.length_filter_le _ _)]
      · intro hnil
        rw [hnil] at hfe
        simp at hfe

/-- C10 (witness): the suggestions theorem applied at age 30 for the
catalog goal `energy` and the unknown goal `muscle`. -/
theorem c10_witness :
    (∃ l, getSuggestions 30 "energy" = .ok l ∧ l ≠ [] ∧ l.length ≤ 3) ∧
    (∃ e, getSuggestions 30 "muscle" = .error e) := by
  constructor
  · obtain ⟨l, hl, hne, hlen, -⟩ := (c10_suggestions 30 "energy").2 _ rfl
    exact ⟨l, hl, hne, hlen⟩
  · exact (c10_suggestions 30 "muscle").1 rfl
